import Mathlib

/-!
Verification of the marketing-operations backend's algorithmic fragments:
the contact-form spam scoring (`apps/contacts/security.py`,
`apps/backend/apps/contacts/services.py`), the A/B-test variant assignment
and statistics (`apps/ab_testing/models.py`), the webhook retry/HMAC logic
(`apps/webhooks/models.py`) and the analytics session cache
(`apps/analytics/session_manager.py`).

Python strings are modelled as Lean `String` (a list of unicode scalar
values, matching Python's `str` of code points for the inputs at issue);
Python's arbitrary-precision `int` as `ℤ`/`ℕ`; Python `float` values are
modelled exactly: where a float computation decides control flow
(`ABTest.assign_variant`'s threshold) the IEEE-754 binary64
round-to-nearest-even semantics is embedded over exact rationals, and
elsewhere scores are tracked as exact rationals `ℚ` (the decimal literals
0.15, 0.3, … are exactly representable choices whose bounds arguments are
rounding-independent).  External effects (the reCAPTCHA HTTP verification,
the django-ratelimit counter, Django settings, the database rows feeding
`calculate_stats`, `hashlib`/`hmac`/`scipy` library outputs) enter the
model as explicit parameters.
-/

/-! ## Byte and bit-level utilities -/

/-- Number of binary digits of `n` consumed with structural fuel, so that the
kernel can evaluate it: `bitlenAux fuel n` is `⌊log2 n⌋ + 1` for `1 ≤ n ≤ 2^fuel - 1`
and `0` for `n = 0`. -/
def bitlenAux : ℕ → ℕ → ℕ
  | 0, _ => 0
  | fuel + 1, n => if n = 0 then 0 else bitlenAux fuel (n / 2) + 1

/-- Bit length of a natural number. -/
def bitlen (n : ℕ) : ℕ := bitlenAux n n

/-- UTF-8 encoding of one unicode scalar value, as the standard 1-4 bytes.
Models CPython's `str.encode()` on a single code point. -/
def utf8Char (n : ℕ) : List ℕ :=
  if n < 0x80 then [n]
  else if n < 0x800 then [0xC0 + n / 64, 0x80 + n % 64]
  else if n < 0x10000 then [0xE0 + n / 4096, 0x80 + n / 64 % 64, 0x80 + n % 64]
  else [0xF0 + n / 262144, 0x80 + n / 4096 % 64, 0x80 + n / 64 % 64, 0x80 + n % 64]

/-- UTF-8 encoding of a string: Python's `s.encode()` / `s.encode('utf-8')`. -/
def utf8Encode (s : String) : List ℕ :=
  (s.data.map (fun c => utf8Char c.toNat)).flatten

/-- Lowercase hexadecimal digit for a value below 16, as its code point:
0-9 from 48, a-f from 97. -/
def hexChar (n : ℕ) : Char :=
  if n < 10 then Char.ofNat (48 + n) else Char.ofNat (87 + n)

/-- Lowercase hexadecimal rendering of a byte list: Python's `.hexdigest()`
applied to a digest, two nibbles per byte, most significant first. -/
def hexOfBytes (bs : List ℕ) : String :=
  String.mk (bs.foldr (fun b acc => hexChar (b / 16) :: hexChar (b % 16) :: acc) [])

/-- Value of one hexadecimal digit (lowercase as produced by `hexChar`). -/
def hexVal (c : Char) : ℕ :=
  if c.toNat ≥ 97 then c.toNat - 87 else c.toNat - 48

/-- Python's `int(s, 16)` on a lowercase hex string. -/
def hexToNat (s : String) : ℕ :=
  s.data.foldl (fun acc c => acc * 16 + hexVal c) 0

/-- Split a byte list into consecutive chunks of `k` bytes (fuel-structural). -/
def chunksAux (k : ℕ) : ℕ → List ℕ → List (List ℕ)
  | 0, _ => []
  | _, [] => []
  | fuel + 1, l => l.take k :: chunksAux k fuel (l.drop k)

/-- Consecutive chunks of `k` bytes of a byte list. -/
def chunks (k : ℕ) (l : List ℕ) : List (List ℕ) := chunksAux k l.length l

/-- The 32-bit words of a byte list read little-endian, 4 bytes per word. -/
def wordsLE : List ℕ → List ℕ
  | b0 :: b1 :: b2 :: b3 :: rest => (b0 + 256 * (b1 + 256 * (b2 + 256 * b3))) :: wordsLE rest
  | _ => []

/-- The 32-bit words of a byte list read big-endian, 4 bytes per word. -/
def wordsBE : List ℕ → List ℕ
  | b0 :: b1 :: b2 :: b3 :: rest => (b3 + 256 * (b2 + 256 * (b1 + 256 * b0))) :: wordsBE rest
  | _ => []

/-- The 4 little-endian bytes of a 32-bit word. -/
def bytesLE32 (w : ℕ) : List ℕ :=
  [w % 256, w / 256 % 256, w / 65536 % 256, w / 16777216 % 256]

/-- The 4 big-endian bytes of a 32-bit word. -/
def bytesBE32 (w : ℕ) : List ℕ :=
  [w / 16777216 % 256, w / 65536 % 256, w / 256 % 256, w % 256]

/-- The 8 little-endian bytes of a 64-bit value. -/
def bytesLE64 (w : ℕ) : List ℕ :=
  bytesLE32 (w % 4294967296) ++ bytesLE32 (w / 4294967296 % 4294967296)

/-- The 8 big-endian bytes of a 64-bit value. -/
def bytesBE64 (w : ℕ) : List ℕ :=
  bytesBE32 (w / 4294967296 % 4294967296) ++ bytesBE32 (w % 4294967296)

/-- Rotate a 32-bit word left by `s` bits. -/
def rotl32 (x s : ℕ) : ℕ :=
  (x <<< s ||| x >>> (32 - s)) % 4294967296

/-- Rotate a 32-bit word right by `s` bits. -/
def rotr32 (x s : ℕ) : ℕ :=
  (x >>> s ||| x <<< (32 - s)) % 4294967296

/-! ## MD5 (RFC 1321), the hash behind `hashlib.md5` in
`ABTest.assign_variant`.  `hashlib` is an external library; this is the
standard algorithm it implements, embedded so the hash-based bucketing can
be evaluated on concrete inputs. -/

/-- The MD5 sine-derived round constants `K[i] = ⌊|sin(i+1)| · 2^32⌋`. -/
def md5K : List ℕ :=
  [3614090360, 3905402710, 606105819, 3250441966, 4118548399, 1200080426, 2821735955, 4249261313,
   1770035416, 2336552879, 4294925233, 2304563134, 1804603682, 4254626195, 2792965006, 1236535329,
   4129170786, 3225465664, 643717713, 3921069994, 3593408605, 38016083, 3634488961, 3889429448,
   568446438, 3275163606, 4107603335, 1163531501, 2850285829, 4243563512, 1735328473, 2368359562,
   4294588738, 2272392833, 1839030562, 4259657740, 2763975236, 1272893353, 4139469664, 3200236656,
   681279174, 3936430074, 3572445317, 76029189, 3654602809, 3873151461, 530742520, 3299628645,
   4096336452, 1126891415, 2878612391, 4237533241, 1700485571, 2399980690, 4293915773, 2240044497,
   1873313359, 4264355552, 2734768916, 1309151649, 4149444226, 3174756917, 718787259, 3951481745]

/-- The MD5 per-round left-rotation amounts. -/
def md5S : List ℕ :=
  [7, 12, 17, 22, 7, 12, 17, 22, 7, 12, 17, 22, 7, 12, 17, 22,
   5, 9, 14, 20, 5, 9, 14, 20, 5, 9, 14, 20, 5, 9, 14, 20,
   4, 11, 16, 23, 4, 11, 16, 23, 4, 11, 16, 23, 4, 11, 16, 23,
   6, 10, 15, 21, 6, 10, 15, 21, 6, 10, 15, 21, 6, 10, 15, 21]

/-- One MD5 round: mixing function and message index for round `i`, then the
register rotation.  State is `(a, b, c, d)`. -/
def md5Round (m : List ℕ) (st : ℕ × ℕ × ℕ × ℕ) (i : ℕ) : ℕ × ℕ × ℕ × ℕ :=
  let (a, b, c, d) := st
  let f :=
    if i < 16 then (b &&& c) ||| ((4294967295 ^^^ b) &&& d)
    else if i < 32 then (d &&& b) ||| ((4294967295 ^^^ d) &&& c)
    else if i < 48 then b ^^^ c ^^^ d
    else c ^^^ (b ||| (4294967295 ^^^ d))
  let g :=
    if i < 16 then i
    else if i < 32 then (5 * i + 1) % 16
    else if i < 48 then (3 * i + 5) % 16
    else (7 * i) % 16
  let sum := (f + a + md5K.getD i 0 + m.getD g 0) % 4294967296
  (d, (b + rotl32 sum (md5S.getD i 0)) % 4294967296, b, c)

/-- MD5 compression of one 64-byte block into the running state. -/
def md5Block (st : ℕ × ℕ × ℕ × ℕ) (block : List ℕ) : ℕ × ℕ × ℕ × ℕ :=
  let m := wordsLE block
  let (a, b, c, d) := (List.range 64).foldl (md5Round m) st
  let (a0, b0, c0, d0) := st
  ((a0 + a) % 4294967296, (b0 + b) % 4294967296, (c0 + c) % 4294967296, (d0 + d) % 4294967296)

/-- MD5 padding: a 0x80 byte, zeros to 56 mod 64, and the bit length as 8
little-endian bytes. -/
def md5Pad (msg : List ℕ) : List ℕ :=
  msg ++ 128 :: List.replicate ((119 - msg.length % 64) % 64) 0
      ++ bytesLE64 (8 * msg.length % 18446744073709551616)

/-- The 16 MD5 digest bytes of a byte message. -/
def md5Bytes (msg : List ℕ) : List ℕ :=
  let (a, b, c, d) :=
    (chunks 64 (md5Pad msg)).foldl md5Block (1732584193, 4023233417, 2562383102, 271733878)
  bytesLE32 a ++ bytesLE32 b ++ bytesLE32 c ++ bytesLE32 d

/-- Python's `hashlib.md5(s.encode()).hexdigest()`. -/
def md5Hex (s : String) : String := hexOfBytes (md5Bytes (utf8Encode s))

/-- Python's `int(hashlib.md5(s.encode()).hexdigest(), 16)`. -/
def md5Int (s : String) : ℕ := hexToNat (md5Hex s)

/-! ## SHA-256 (FIPS 180-4), the hash behind `hashlib.sha256` used by the
webhook HMAC signing.  As with MD5, `hashlib` is external; this is the
standard algorithm it implements. -/

/-- The SHA-256 cube-root-derived round constants. -/
def sha256K : List ℕ :=
  [1116352408, 1899447441, 3049323471, 3921009573, 961987163, 1508970993, 2453635748, 2870763221,
   3624381080, 310598401, 607225278, 1426881987, 1925078388, 2162078206, 2614888103, 3248222580,
   3835390401, 4022224774, 264347078, 604807628, 770255983, 1249150122, 1555081692, 1996064986,
   2554220882, 2821834349, 2952996808, 3210313671, 3336571891, 3584528711, 113926993, 338241895,
   666307205, 773529912, 1294757372, 1396182291, 1695183700, 1986661051, 2177026350, 2456956037,
   2730485921, 2820302411, 3259730800, 3345764771, 3516065817, 3600352804, 4094571909, 275423344,
   430227734, 506948616, 659060556, 883997877, 958139571, 1322822218, 1537002063, 1747873779,
   1955562222, 2024104815, 2227730452, 2361852424, 2428436474, 2756734187, 3204031479, 3329325298]

/-- SHA-256 working state: the eight 32-bit registers. -/
structure Sha256State where
  a : ℕ
  b : ℕ
  c : ℕ
  d : ℕ
  e : ℕ
  f : ℕ
  g : ℕ
  h : ℕ

/-- The SHA-256 initial hash value (square-root-derived). -/
def sha256H0 : Sha256State :=
  ⟨1779033703, 3144134277, 1013904242, 2773480762, 1359893119, 2600822924, 528734635, 1541459225⟩

/-- Message-schedule extension: from the 16 block words to 64 words. -/
def sha256Extend (w : List ℕ) : ℕ → List ℕ
  | 0 => w
  | n + 1 =>
    let w' := sha256Extend w n
    let i := w'.length
    let x15 := w'.getD (i - 15) 0
    let x2 := w'.getD (i - 2) 0
    let s0 := rotr32 x15 7 ^^^ rotr32 x15 18 ^^^ x15 >>> 3
    let s1 := rotr32 x2 17 ^^^ rotr32 x2 19 ^^^ x2 >>> 10
    w' ++ [(w'.getD (i - 16) 0 + s0 + w'.getD (i - 7) 0 + s1) % 4294967296]

/-- One SHA-256 compression round with schedule word `wi` and constant `ki`. -/
def sha256Round (st : Sha256State) (kw : ℕ × ℕ) : Sha256State :=
  let s1 := rotr32 st.e 6 ^^^ rotr32 st.e 11 ^^^ rotr32 st.e 25
  let ch := (st.e &&& st.f) ^^^ ((4294967295 ^^^ st.e) &&& st.g)
  let t1 := (st.h + s1 + ch + kw.1 + kw.2) % 4294967296
  let s0 := rotr32 st.a 2 ^^^ rotr32 st.a 13 ^^^ rotr32 st.a 22
  let mj := (st.a &&& st.b) ^^^ (st.a &&& st.c) ^^^ (st.b &&& st.c)
  let t2 := (s0 + mj) % 4294967296
  ⟨(t1 + t2) % 4294967296, st.a, st.b, st.c, (st.d + t1) % 4294967296, st.e, st.f, st.g⟩

/-- SHA-256 compression of one 64-byte block into the running state. -/
def sha256Block (st : Sha256State) (block : List ℕ) : Sha256State :=
  let w := sha256Extend (wordsBE block) 48
  let r := (sha256K.zip w).foldl sha256Round st
  ⟨(st.a + r.a) % 4294967296, (st.b + r.b) % 4294967296, (st.c + r.c) % 4294967296,
   (st.d + r.d) % 4294967296, (st.e + r.e) % 4294967296, (st.f + r.f) % 4294967296,
   (st.g + r.g) % 4294967296, (st.h + r.h) % 4294967296⟩

/-- SHA-256 padding: a 0x80 byte, zeros to 56 mod 64, and the bit length as
8 big-endian bytes. -/
def sha256Pad (msg : List ℕ) : List ℕ :=
  msg ++ 128 :: List.replicate ((119 - msg.length % 64) % 64) 0
      ++ bytesBE64 (8 * msg.length % 18446744073709551616)

/-- The 32 SHA-256 digest bytes of a byte message. -/
def sha256Bytes (msg : List ℕ) : List ℕ :=
  let r := (chunks 64 (sha256Pad msg)).foldl sha256Block sha256H0
  bytesBE32 r.a ++ bytesBE32 r.b ++ bytesBE32 r.c ++ bytesBE32 r.d ++
  bytesBE32 r.e ++ bytesBE32 r.f ++ bytesBE32 r.g ++ bytesBE32 r.h

/-! ## HMAC.  `hmac.new(secret, payload, hashlib.sha256).hexdigest()` calls
CPython's `hmac` module; its digest construction is embedded below
(`pyHmacSha256`), and the claim about `WebhookEvent.generate_signature`
is settled against an independently written RFC 2104 formulation. -/

/-- CPython's `hmac.new(key, msg, sha256).digest()`: a key longer than the
64-byte block is first hashed, the key is zero-padded to the block size, the
inner hash is taken over the 0x36-translated key followed by the message,
and the outer hash over the 0x5c-translated key followed by the inner
digest. -/
def pyHmacSha256 (key msg : List ℕ) : List ℕ :=
  let key1 := if 64 < key.length then sha256Bytes key else key
  let key0 := key1 ++ List.replicate (64 - key1.length) 0
  let inner := sha256Bytes (key0.map (fun b => b ^^^ 54) ++ msg)
  sha256Bytes (key0.map (fun b => b ^^^ 92) ++ inner)

/-- Modelled from the spec: the standard HMAC-SHA256 of RFC 2104,
`H((K0 ⊕ opad) ‖ H((K0 ⊕ ipad) ‖ m))` with `B = 64`, `ipad` a block of
0x36 bytes, `opad` a block of 0x5c bytes, and `K0` the key hashed when
longer than a block and zero-extended to exactly a block. -/
def hmacSha256Rfc (key msg : List ℕ) : List ℕ :=
  let kh := if key.length ≤ 64 then key else sha256Bytes key
  let k0 := kh ++ List.replicate (64 - kh.length) 0
  let ipad := List.replicate 64 54
  let opad := List.replicate 64 92
  sha256Bytes (k0.zipWith Nat.xor opad ++ sha256Bytes (k0.zipWith Nat.xor ipad ++ msg))

/-- Modelled from the spec: the lowercase hexadecimal HMAC-SHA256 digest of
`msg` keyed with `key`, as the claim about webhook signing states it. -/
def hmacSha256RfcHex (key msg : List ℕ) : String :=
  hexOfBytes (hmacSha256Rfc key msg)

/-! ## IEEE-754 binary64 rounding, exactly.  `ABTest.assign_variant`
computes `threshold = (traffic_split / 100) * 100` in Python floats and
compares an integer against it, so the two correctly rounded operations are
embedded as exact rational arithmetic: `/` and `*` on binary64 values each
produce the representable value nearest the exact result (ties to even).
The inputs in range here are normal and far from overflow, so the
mantissa-rounding rule below is the whole semantics. -/

/-- Round `a / b` (with `b > 0`) to the nearest integer, ties to even. -/
def rneDiv (a b : ℕ) : ℕ :=
  let q := a / b
  let r := a % b
  if 2 * r < b then q
  else if b < 2 * r then q + 1
  else if q % 2 = 0 then q else q + 1

/-- Whether `2 ^ n ≤ a / b` for a signed exponent and positive `a b`. -/
def pow2LeFrac (n : ℤ) (a b : ℕ) : Bool :=
  if 0 ≤ n then 2 ^ n.toNat * b ≤ a else b ≤ 2 ^ (-n).toNat * a

/-- The floor of the base-2 logarithm of `a / b` for positive `a b`. -/
def floorLog2Frac (a b : ℕ) : ℤ :=
  let n0 : ℤ := (bitlen a : ℤ) - (bitlen b : ℤ)
  if pow2LeFrac n0 a b then n0 else n0 - 1

/-- The binary64 value nearest `a / b` (positive, normal, ties to even), as
an exact fraction `(numerator, power-of-two denominator)`: the mantissa is
`a / b` scaled to `[2^52, 2^53]` and rounded to nearest-even. -/
def roundB64PosFrac (a b : ℕ) : ℕ × ℕ :=
  let s := 52 - floorLog2Frac a b
  if 0 ≤ s then (rneDiv (a * 2 ^ s.toNat) b, 2 ^ s.toNat)
  else (rneDiv a (b * 2 ^ (-s).toNat) * 2 ^ (-s).toNat, 1)

/-- The exact value of the Python float `(traffic_split / 100) * 100`
computed in `ABTest.assign_variant`: binary64 division of the (exactly
representable) integer by 100, then binary64 multiplication by 100, each
correctly rounded; negative splits by sign symmetry of the rounding. -/
def floatThreshold (t : ℤ) : ℚ :=
  if t = 0 then 0
  else
    let p1 := roundB64PosFrac t.natAbs 100
    let p2 := roundB64PosFrac (p1.1 * 100) p1.2
    if 0 < t then mkRat p2.1 p2.2 else -(mkRat p2.1 p2.2)

/-! ## `ABTest.assign_variant` (`apps/ab_testing/models.py`).  Of the Django
model only the fields the method reads are carried: the primary key
(rendered as the string the f-string interpolates) and the traffic split. -/

/-- The `ABTest` model, restricted to the fields `assign_variant` reads:
`id` as the string `str(self.id)` interpolates to, and `traffic_split`
(an `IntegerField`, percentage of traffic to variant B). -/
structure ABTest where
  id : String
  traffic_split : ℤ

/-- Line-by-line model of `ABTest.assign_variant`:
`hash_input = f"{self.id}_{user_identifier}"`,
`hash_value = int(hashlib.md5(hash_input.encode()).hexdigest(), 16)`,
`threshold = (self.traffic_split / 100) * 100` in floats, and
`'B' if (hash_value % 100) < threshold else 'A'`. -/
def ABTest.assign_variant (test : ABTest) (user_identifier : String) : String :=
  let hash_input := test.id ++ "_" ++ user_identifier
  let hash_value := md5Int hash_input
  let threshold := floatThreshold test.traffic_split
  if (hash_value % 100 : ℕ) < threshold then "B" else "A"

/-! ## String utilities shared by the spam checks.  They model the exact
Python constructs the two spam modules use: substring membership (`in`),
`str.lower`/`str.strip`, and the four regular expressions, each compiled
here into an equivalent decision procedure.  Character classes
(`isupper`, `\d`, `\s`, `str.lower`) are taken at their ASCII meaning,
which coincides with Python on the ASCII inputs at issue. -/

/-- Python's whitespace class `\s` / `str.strip` default (ASCII part). -/
def isSpacePy (c : Char) : Bool :=
  c = ' ' || c = '\t' || c = '\n' || c = '\r' || c = '\x0b' || c = '\x0c'

/-- Python's `str.strip()`: whitespace removed from both ends. -/
def pyStrip (s : String) : String :=
  String.mk (((s.data.dropWhile isSpacePy).reverse.dropWhile isSpacePy).reverse)

/-- Python's `str.lower()` (ASCII meaning). -/
def pyLower (s : String) : String := String.mk (s.data.map Char.toLower)

/-- Whether `needle` occurs as a contiguous sublist of the list. -/
def containsSub (needle : List Char) : List Char → Bool
  | [] => needle.isEmpty
  | c :: t => needle.isPrefixOf (c :: t) || containsSub needle t

/-- Python's `sub in s` on strings. -/
def strContains (s sub : String) : Bool := containsSub sub.data s.data

/-- One match attempt of `https?://[^\s]+` at the head of the list: on
success, the rest of the input after the (greedy) match.  The `s?` branch
is tried long-first exactly as the regex engine backtracks. -/
def matchLinkAt (l : List Char) : Option (List Char) :=
  if "https://".data.isPrefixOf l then
    let after := l.drop 8
    let run := after.takeWhile (fun c => !isSpacePy c)
    if run.isEmpty then none else some (after.drop run.length)
  else if "http://".data.isPrefixOf l then
    let after := l.drop 7
    let run := after.takeWhile (fun c => !isSpacePy c)
    if run.isEmpty then none else some (after.drop run.length)
  else none

/-- Scanning count of non-overlapping matches, as `re.findall` advances:
after a match the scan resumes past it, otherwise one character on. -/
def countLinksAux : ℕ → List Char → ℕ
  | 0, _ => 0
  | fuel + 1, l =>
    match matchLinkAt l with
    | some rest => 1 + countLinksAux fuel rest
    | none =>
      match l with
      | [] => 0
      | _ :: t => countLinksAux fuel t

/-- Python's `len(re.findall(r'https?://[^\s]+', message))`. -/
def countLinks (s : String) : ℕ := countLinksAux s.data.length s.data

/-- Python's `re.search(r'(.)\1{k-1,}', s)` as a Boolean: some character
other than a newline (which `.` does not match) occurs at least `k` times
consecutively. -/
def hasCharRun (k : ℕ) : List Char → Bool
  | [] => false
  | c :: t =>
    (c ≠ '\n' && k - 1 ≤ t.length && (t.take (k - 1)).all (· = c)) || hasCharRun k t

/-- Whether `k` consecutive characters satisfying `p` occur: the searches
for `\d{4,}` and `[!@#$%^&*()]{3,}`. -/
def hasPredRun (k : ℕ) (p : Char → Bool) : List Char → Bool
  | [] => false
  | c :: t => (p c && k - 1 ≤ t.length && (t.take (k - 1)).all p) || hasPredRun k p t

/-- The character class `[!@#$%^&*()]`. -/
def isSpecialPy (c : Char) : Bool :=
  c = '!' || c = '@' || c = '#' || c = '$' || c = '%' || c = '^' ||
  c = '&' || c = '*' || c = '(' || c = ')'

/-- The local-part class `[a-zA-Z0-9._%+-]` of the e-mail regex. -/
def isLocalChar (c : Char) : Bool :=
  c.isAlphanum || c = '.' || c = '_' || c = '%' || c = '+' || c = '-'

/-- The domain class `[a-zA-Z0-9.-]` of the e-mail regex. -/
def isDomChar (c : Char) : Bool := c.isAlphanum || c = '.' || c = '-'

/-- Whether some split `. [a-zA-Z]{2,}` closes the domain: a dot somewhere
with only letters after it, at least two of them.  Backtracking makes the
regex succeed iff any such dot exists. -/
def domSplit : List Char → Bool
  | [] => false
  | c :: t => (c = '.' && 2 ≤ t.length && t.all Char.isAlpha) || domSplit t

/-- Match of the whole list against `[a-zA-Z0-9.-]+\.[a-zA-Z]{2,}`:
all characters in the domain class, a nonempty run before some dot that is
followed only by 2+ letters. -/
def domainOk (d : List Char) : Bool :=
  d.all isDomChar &&
    match d with
    | [] => false
    | _ :: t => domSplit t

/-- Match of the whole list against
`[a-zA-Z0-9._%+-]+@[a-zA-Z0-9.-]+\.[a-zA-Z]{2,}`: since neither class
contains `@`, the match splits at the one `@`. -/
def emailCore (l : List Char) : Bool :=
  let local_ := l.takeWhile (· ≠ '@')
  match l.drop local_.length with
  | '@' :: domain => !local_.isEmpty && local_.all isLocalChar && domainOk domain
  | _ => false

/-- Python's `re.match(r'^[a-zA-Z0-9._%+-]+@[a-zA-Z0-9.-]+\.[a-zA-Z]{2,}$', s)`
as a Boolean: anchored at both ends, where `$` also matches just before one
final newline. -/
def emailMatch (s : String) : Bool :=
  emailCore s.data ||
    (s.data.getLast? = some '\n' && emailCore s.data.dropLast)

/-! ## `detect_spam` (`apps/contacts/security.py`).  The submission `data`
dict is carried as the four fields the function reads; `data.get(k, '')`
on a missing key is the empty string, which the field then holds. -/

/-- The fields of the submission data dict that the spam heuristics read. -/
structure SubmissionData where
  message : String
  email : String
  name : String
  subject : String

/-- The `spam_keywords` list of `detect_spam`. -/
def spam_keywords : List String :=
  ["viagra", "casino", "lottery", "winner", "click here", "limited time",
   "act now", "urgent", "free money", "guaranteed", "no risk",
   "work from home", "make money fast", "get rich", "debt consolidation"]

/-- The `suspicious_domains` list of `detect_spam`. -/
def suspicious_domains : List String :=
  ["tempmail", "10minutemail", "guerrillamail", "mailinator",
   "throwaway", "trashmail", "getnada", "mohmal"]

/-- The keyword loop of `detect_spam`: 0.15 per listed keyword occurring in
the message, name or subject. -/
def dsKeywords (message name subject : String) (acc : ℚ × List String) : ℚ × List String :=
  spam_keywords.foldl (fun (acc : ℚ × List String) kw =>
    if strContains message kw || strContains name kw || strContains subject kw then
      (acc.1 + 0.15, acc.2 ++ ["Suspicious keyword: " ++ kw])
    else acc) acc

/-- The excessive-links check of `detect_spam`: 0.2 beyond 3 matches. -/
def dsLinks (message : String) (acc : ℚ × List String) : ℚ × List String :=
  let links := countLinks message
  if 3 < links then (acc.1 + 0.2, acc.2 ++ ["Too many links: " ++ toString links])
  else acc

/-- The ALL-CAPS check of `detect_spam`: 0.1 when more than 70% of a
message longer than 20 characters is uppercase. -/
def dsCaps (message : String) (acc : ℚ × List String) : ℚ × List String :=
  if message ≠ "" ∧ 20 < message.length then
    (if (0.7 : ℚ) < (message.data.countP (fun c => c.isUpper) : ℚ) / (message.length : ℚ) then
      (acc.1 + 0.1, acc.2 ++ ["Excessive capitalization"])
    else acc)
  else acc

/-- The repeated-characters check of `detect_spam`: 0.1 on `(.)\1{4,}`. -/
def dsRepeat (message : String) (acc : ℚ × List String) : ℚ × List String :=
  if message ≠ "" ∧ hasCharRun 5 message.data then
    (acc.1 + 0.1, acc.2 ++ ["Repeated characters detected"])
  else acc

/-- The suspicious-domain loop of `detect_spam`: 0.3 for the first listed
domain occurring in the e-mail (the loop breaks). -/
def dsDomain (email : String) (acc : ℚ × List String) : ℚ × List String :=
  match suspicious_domains.find? (fun d => strContains email d) with
  | some d => (acc.1 + 0.3, acc.2 ++ ["Suspicious email domain: " ++ d])
  | none => acc

/-- The short-message check of `detect_spam`: 0.1 below 15 characters. -/
def dsShort (message : String) (acc : ℚ × List String) : ℚ × List String :=
  if message.length < 15 then (acc.1 + 0.1, acc.2 ++ ["Message too short"])
  else acc

/-- The e-mail-format check of `detect_spam`: 0.2 when the anchored e-mail
regex does not match. -/
def dsEmailFmt (email : String) (acc : ℚ × List String) : ℚ × List String :=
  if !emailMatch email then (acc.1 + 0.2, acc.2 ++ ["Invalid email format"])
  else acc

/-- The final pattern loop of `detect_spam` (no break): 0.1 for a run of 4
digits, 0.1 for a run of 3 special characters. -/
def dsPatterns (message : String) (acc : ℚ × List String) : ℚ × List String :=
  let acc := if hasPredRun 4 Char.isDigit message.data then
      (acc.1 + 0.1, acc.2 ++ ["Suspicious pattern detected"])
    else acc
  if hasPredRun 3 isSpecialPy message.data then
    (acc.1 + 0.1, acc.2 ++ ["Suspicious pattern detected"])
  else acc

/-- Line-by-line model of `detect_spam`: the lowered fields feed the
heuristics in source order, each adding its weight to `spam_score` and a
reason; the classification threshold is `spam_score >= 0.7` and the
returned score is `min(1.0, spam_score)`. -/
def detect_spam (data : SubmissionData) : Bool × ℚ × List String :=
  let message := pyLower data.message
  let email := pyLower data.email
  let name := pyLower data.name
  let subject := pyLower data.subject
  let acc := dsPatterns message (dsEmailFmt email (dsShort message (dsDomain email
    (dsRepeat message (dsCaps message (dsLinks message
      (dsKeywords message name subject (0, []))))))))
  ((0.7 : ℚ) ≤ acc.1, min 1 acc.1, acc.2)


/-! ## `CheckSubmissionSpam` (`apps/backend/apps/contacts/services.py`).
The service's environment — Django settings (`RECAPTCHA_SECRET_KEY`,
`RECAPTCHA_REQUIRED_SCORE`), the outcome of the `verify_recaptcha` HTTP
call and the django-ratelimit counter state — is external mutable state,
carried as an explicit `Env`; `hasRequest` models whether the optional
`request` argument was supplied.  The mutable `self.spam_score` /
`self.reasons` / `self.logs` triple is the threaded `St`. -/

namespace CheckSubmissionSpam

/-- The external state `calculate_spam_score` can observe: settings, the
reCAPTCHA verification outcome per (token, secret), and whether the
client's IP is currently rate-limited. -/
structure Env where
  recaptcha_secret : Option String
  recaptcha_required_score : ℚ
  verify : String → String → Bool × ℚ × String
  rate_limited : Bool

/-- The mutable instance state the checks accumulate into. -/
structure St where
  spam_score : ℚ
  reasons : List String
  logs : List String

/-- Adding a score increment with its reason and log line. -/
def St.add (st : St) (amt : ℚ) (reason log : String) : St :=
  ⟨st.spam_score + amt, st.reasons ++ [reason], st.logs ++ [log]⟩

/-- The `SPAM_KEYWORDS` class attribute. -/
def SPAM_KEYWORDS : List String :=
  ["viagra", "casino", "lottery", "winner", "click here", "limited time",
   "act now", "urgent", "free money", "guaranteed", "no risk",
   "work from home", "make money fast", "get rich", "debt consolidation",
   "weight loss", "miracle cure", "one weird trick", "you won",
   "congratulations", "claim now", "exclusive offer", "limited offer"]

/-- The `BLACKLISTED_DOMAINS` class attribute. -/
def BLACKLISTED_DOMAINS : List String :=
  ["tempmail", "10minutemail", "guerrillamail", "mailinator",
   "throwaway", "trashmail", "getnada", "mohmal", "yopmail",
   "fakeinbox", "dispostable", "maildrop"]

/-- The `BLACKLISTED_EMAILS` class attribute (empty in the source). -/
def BLACKLISTED_EMAILS : List String := []

/-- Python's `f"{q:.2f}"` on the (nonnegative) caps ratio: the value in
hundredths rounded to nearest (ties to even), rendered with two decimals. -/
def fmt2f (q : ℚ) : String :=
  let h := rneDiv (q * 100).num.toNat (q * 100).den
  toString (h / 100) ++ "." ++ (if h % 100 < 10 then "0" else "") ++ toString (h % 100)

/-- Model of `check_honeypot`: a nonempty, non-whitespace honeypot value is
immediate spam weight 1.0. -/
def check_honeypot (st : St) (honeypot_value : String) : (Bool × ℚ) × St :=
  if honeypot_value ≠ "" ∧ pyStrip honeypot_value ≠ "" then
    ((true, 1.0),
     st.add 1.0 "Honeypot field filled"
       ("Honeypot check failed: field contains \x27" ++ honeypot_value.take 20 ++ "\x27"))
  else ((false, 0.0), st)

/-- Model of `check_recaptcha`: skipped without a configured secret; a
missing token adds 0.3; a failed verification adds 0.5 and flags spam; a
score below the required score adds `(required - score) * 0.5` and flags
spam only below 0.3. -/
def check_recaptcha (env : Env) (st : St) (token : String) : (Bool × ℚ) × St :=
  match env.recaptcha_secret with
  | none => ((false, 0.0), st)
  | some recaptcha_secret =>
    if token = "" then
      ((false, 0.3), st.add 0.3 "Missing reCAPTCHA token" "reCAPTCHA token missing")
    else
      let (success, score, error) := env.verify token recaptcha_secret
      if !success then
        ((true, 0.5),
         st.add 0.5 ("reCAPTCHA verification failed: " ++ error)
           ("reCAPTCHA verification failed: " ++ error))
      else if score < env.recaptcha_required_score then
        let amt := (env.recaptcha_required_score - score) * 0.5
        ((score < 0.3, amt),
         st.add amt ("Low reCAPTCHA score: " ++ toString score)
           ("Low reCAPTCHA score: " ++ toString score ++ " (required: " ++
            toString env.recaptcha_required_score ++ ")"))
      else ((false, 0.0), st)

/-- The `spam_patterns` of `check_content`, each as its regex source text
(braces written \x7b \x7d) and the equivalent decision. -/
def spam_patterns : List (String × (List Char → Bool)) :=
  [("\\d\x7b4,\x7d", hasPredRun 4 Char.isDigit),
   ("[!@#$%^&*()]\x7b3,\x7d", hasPredRun 3 isSpecialPy),
   ("(.)\\1\x7b10,\x7d", hasCharRun 11)]

/-- The content accumulator: local `content_score` with the reasons and
logs the content checks append. -/
abbrev CAcc := ℚ × List String × List String

/-- The keyword loop of `check_content`: 0.15 per listed keyword. -/
def ccKeywords (message name subject : String) (acc : CAcc) : CAcc :=
  SPAM_KEYWORDS.foldl (fun (acc : CAcc) kw =>
    if strContains message kw || strContains name kw || strContains subject kw then
      (acc.1 + 0.15, acc.2.1 ++ ["Suspicious keyword: " ++ kw],
       acc.2.2 ++ ["Found spam keyword: " ++ kw])
    else acc) acc

/-- The link-count check of `check_content`: 0.2 beyond `MAX_LINKS = 3`. -/
def ccLinks (message : String) (acc : CAcc) : CAcc :=
  let links := countLinks message
  if 3 < links then
    (acc.1 + 0.2, acc.2.1 ++ ["Too many links: " ++ toString links],
     acc.2.2 ++ ["Excessive links detected: " ++ toString links])
  else acc

/-- The ALL-CAPS check of `check_content`: 0.1 beyond
`CAPS_RATIO_THRESHOLD = 0.7` on messages longer than 20 characters. -/
def ccCaps (message : String) (acc : CAcc) : CAcc :=
  if message ≠ "" ∧ 20 < message.length then
    (let caps_count : ℕ := message.data.countP (fun c => c.isUpper)
     if (0.7 : ℚ) < (caps_count : ℚ) / (message.length : ℚ) then
      (acc.1 + 0.1, acc.2.1 ++ ["Excessive capitalization"],
       acc.2.2 ++ ["High caps ratio: " ++ fmt2f ((caps_count : ℚ) / (message.length : ℚ))])
     else acc)
  else acc

/-- The repetitive-pattern check of `check_content`: 0.1 on `(.)\1{4,}`. -/
def ccRepeat (message : String) (acc : CAcc) : CAcc :=
  if message ≠ "" ∧ hasCharRun 5 message.data then
    (acc.1 + 0.1, acc.2.1 ++ ["Repeated characters detected"],
     acc.2.2 ++ ["Repetitive pattern found"])
  else acc

/-- The suspicious-pattern loop of `check_content`: 0.1 for the first of
the three patterns that matches (the loop breaks). -/
def ccPatterns (message : String) (acc : CAcc) : CAcc :=
  match spam_patterns.find? (fun pr => pr.2 message.data) with
  | some pr =>
    (acc.1 + 0.1, acc.2.1 ++ ["Suspicious pattern detected"],
     acc.2.2 ++ ["Suspicious pattern: " ++ pr.1])
  | none => acc

/-- The blacklisted-domain loop of `check_content`: 0.3 for the first
listed domain occurring in the e-mail (the loop breaks). -/
def ccDomain (email : String) (acc : CAcc) : CAcc :=
  match BLACKLISTED_DOMAINS.find? (fun d => strContains email d) with
  | some d =>
    (acc.1 + 0.3, acc.2.1 ++ ["Blacklisted email domain: " ++ d],
     acc.2.2 ++ ["Blacklisted domain: " ++ d])
  | none => acc

/-- The blacklisted-address check of `check_content`: 1.0 on a listed
address (the list is empty in the source). -/
def ccBlacklist (email : String) (acc : CAcc) : CAcc :=
  if BLACKLISTED_EMAILS.contains email then
    (acc.1 + 1.0, acc.2.1 ++ ["Blacklisted email address"],
     acc.2.2 ++ ["Blacklisted email: " ++ email])
  else acc

/-- The e-mail-format check of `check_content`: 0.2 on regex mismatch. -/
def ccEmailFmt (email : String) (acc : CAcc) : CAcc :=
  if !emailMatch email then
    (acc.1 + 0.2, acc.2.1 ++ ["Invalid email format"], acc.2.2 ++ ["Invalid email format"])
  else acc

/-- The short-message check of `check_content`: 0.1 below 15 characters. -/
def ccShort (message : String) (acc : CAcc) : CAcc :=
  if message.length < 15 then
    (acc.1 + 0.1, acc.2.1 ++ ["Message too short"],
     acc.2.2 ++ ["Message too short: " ++ toString message.length ++ " chars"])
  else acc

/-- Model of `check_content`: the content heuristics in source order
(keywords; links; caps; repeated characters; the pattern loop, stopping at
the first hit; blacklisted domain, stopping at the first hit; blacklisted
address; e-mail format; short message).  The content score accumulates
locally and is added to `spam_score` at the end; the content-spam flag is
`content_score > 0.5`. -/
def check_content (data : SubmissionData) (st : St) : (Bool × ℚ) × St :=
  let message := pyLower data.message
  let email := pyLower data.email
  let name := pyLower data.name
  let subject := pyLower data.subject
  let a := ccShort message (ccEmailFmt email (ccBlacklist email (ccDomain email
    (ccPatterns message (ccRepeat message (ccCaps message (ccLinks message
      (ccKeywords message name subject (0, [], [])))))))))
  (((0.5 : ℚ) < a.1, a.1),
   ⟨st.spam_score + a.1, st.reasons ++ a.2.1, st.logs ++ a.2.2⟩)


/-- Model of `check_rate_limit`: false without a request, otherwise the
django-ratelimit counter's verdict, with its reason and log recorded. -/
def check_rate_limit (env : Env) (hasRequest : Bool) (st : St) : Bool × St :=
  if !hasRequest then (false, st)
  else if env.rate_limited then
    (true, st.add 0 "Rate limit exceeded" "IP rate limit exceeded")
  else (false, st)

/-- Model of `calculate_spam_score` with its three early returns: a filled
honeypot returns spam 1.0 at once; a reCAPTCHA-spam verdict of weight at
least 0.5 returns the clamped running score; a rate-limit hit returns spam
1.0; otherwise the content score joins and the verdict is
`final_score > 0.7` with `final_score = min(1.0, spam_score)`. -/
def calculate_spam_score (env : Env) (data : SubmissionData) (hasRequest : Bool)
    (honeypot_value recaptcha_token : Option String) :
    Bool × ℚ × List String × List String :=
  let st0 : St := ⟨0.0, [], []⟩
  let hp := match honeypot_value with
    | some v => check_honeypot st0 v
    | none => ((false, 0.0), st0)
  if hp.1.1 then (true, 1.0, hp.2.reasons, hp.2.logs)
  else
    let rc := match recaptcha_token with
      | some tok => check_recaptcha env hp.2 tok
      | none => ((false, 0.0), hp.2)
    if rc.1.1 ∧ (0.5 : ℚ) ≤ rc.1.2 then
      (true, min 1.0 rc.2.spam_score, rc.2.reasons, rc.2.logs)
    else
      let rl := check_rate_limit env hasRequest rc.2
      if rl.1 then (true, 1.0, rl.2.reasons, rl.2.logs)
      else
        let ct := check_content data rl.2
        let final_score := min 1.0 ct.2.spam_score
        ((0.7 : ℚ) < final_score, final_score, ct.2.reasons, ct.2.logs)

end CheckSubmissionSpam

/-! ## `ABTestStats.calculate_stats` (`apps/ab_testing/models.py`).  The
four `.count()` database queries and scipy's
`chi2_contingency(...)[:2]` p-value are external inputs, passed as
parameters; the method's arithmetic and winner decision on them is the
model.  This is the scipy path of the method (scipy importable, no
exception): the `except ImportError` and `except Exception` handlers both
begin by calling `logger`, a name the module never defines, so neither
handler completes. -/

/-- The `ABTestStats` row, with the fields `calculate_stats` writes.
`winner` is one of `'A'`, `'B'`, `'N'` (or NULL before any calculation). -/
structure ABTestStats where
  variant_a_visitors : ℕ
  variant_b_visitors : ℕ
  variant_a_conversions : ℕ
  variant_b_conversions : ℕ
  variant_a_conversion_rate : ℚ
  variant_b_conversion_rate : ℚ
  statistical_significance : Option ℚ
  confidence_level : Option ℚ
  winner : Option String

/-- Model of `calculate_stats` on the queried counts `aVis`, `bVis`,
`aConv`, `bConv` and scipy's chi-square `p_value` for the 2×2 contingency
table: rates become `conversions / visitors * 100` (when visitors exist),
and with both visitor counts positive the significance fields are stored
and the winner is the strictly higher rate when `p_value < 0.05`, else
`'N'`. -/
def ABTestStats.calculate_stats (st : ABTestStats) (aVis bVis aConv bConv : ℕ)
    (p_value : ℚ) : ABTestStats :=
  let st := { st with variant_a_visitors := aVis, variant_b_visitors := bVis,
                      variant_a_conversions := aConv, variant_b_conversions := bConv }
  let st := if 0 < aVis then
      { st with variant_a_conversion_rate := (aConv : ℚ) / (aVis : ℚ) * 100 } else st
  let st := if 0 < bVis then
      { st with variant_b_conversion_rate := (bConv : ℚ) / (bVis : ℚ) * 100 } else st
  if 0 < aVis ∧ 0 < bVis then
    let st := { st with statistical_significance := some p_value,
                        confidence_level := some ((1 - p_value) * 100) }
    if p_value < 0.05 then
      if st.variant_a_conversion_rate < st.variant_b_conversion_rate then
        { st with winner := some "B" }
      else if st.variant_b_conversion_rate < st.variant_a_conversion_rate then
        { st with winner := some "A" }
      else { st with winner := some "N" }
    else { st with winner := some "N" }
  else st

/-! ## Webhook models (`apps/webhooks/models.py`).  Timestamps are carried
as an abstract integer clock (`timezone.now()` at the moment of the call),
and `timedelta(seconds=d)` as adding `d`. -/

/-- The `WebhookConfig` fields the event methods read. -/
structure WebhookConfig where
  secret_key : String
  retry_attempts : ℤ
  retry_delay : ℤ

/-- The `WebhookEvent` fields `mark_as_failed` and `generate_signature`
touch, with its `webhook_config` foreign key inlined. -/
structure WebhookEvent where
  webhook_config : WebhookConfig
  status : String
  attempt_count : ℤ
  last_attempt_at : Option ℤ
  next_retry_at : Option ℤ
  response_status : Option ℤ
  response_body : String
  error_message : String

/-- Model of `WebhookEvent.generate_signature`:
`hmac.new(self.webhook_config.secret_key.encode('utf-8'),
payload_str.encode('utf-8'), hashlib.sha256).hexdigest()`. -/
def WebhookEvent.generate_signature (ev : WebhookEvent) (payload_str : String) : String :=
  let secret := utf8Encode ev.webhook_config.secret_key
  hexOfBytes (pyHmacSha256 secret (utf8Encode payload_str))

/-- Model of `WebhookEvent.mark_as_failed(error_message, response_status,
response_body)` at clock `now`: the attempt count rises by one, the error
message is truncated to 1000 characters, the optional response fields are
stored when truthy, and the event either schedules a retry after the
config's delay (status `'retrying'`) while attempts remain below the
config's `retry_attempts`, or ends `'failed'`. -/
def WebhookEvent.mark_as_failed (ev : WebhookEvent) (now : ℤ) (error_message : String)
    (response_status : Option ℤ) (response_body : String) : WebhookEvent :=
  let ev := { ev with attempt_count := ev.attempt_count + 1,
                      last_attempt_at := some now,
                      error_message := error_message.take 1000 }
  let ev := match response_status with
    | some s => if s ≠ 0 then { ev with response_status := some s } else ev
    | none => ev
  let ev := if response_body ≠ "" then { ev with response_body := response_body.take 1000 } else ev
  if ev.attempt_count < ev.webhook_config.retry_attempts then
    { ev with status := "retrying", next_retry_at := some (now + ev.webhook_config.retry_delay) }
  else
    { ev with status := "failed" }

/-! ## `SessionManager` (`apps/analytics/session_manager.py`).  The Django
cache is a key-value store with per-entry TTL, modelled as a map from keys
to `(value, ttl)`; `time.time()` is an abstract clock passed in, and the
module-level `SESSION_TIMEOUT` (a settings lookup) a parameter. -/

namespace SessionManager

/-- The session dict `get_or_create_session` stores (all five keys are
always present in entries this module writes). -/
structure SessionData where
  session_id : String
  created_at : ℚ
  last_activity : ℚ
  page_views : ℤ
  events : ℤ

/-- The analytics cache: each key maps to a stored session and the TTL it
was last set with. -/
def Cache := String → Option (SessionData × ℕ)

/-- The cache key `f'analytics_session_{session_id}'`. -/
def cacheKey (session_id : String) : String := "analytics_session_" ++ session_id

/-- Model of `cache.set(key, value, timeout)`. -/
def Cache.set (c : Cache) (key : String) (v : SessionData) (ttl : ℕ) : Cache :=
  fun k => if k = key then some (v, ttl) else c k

/-- Model of `SessionManager.update_session_activity(session_id)` at clock
`now` with the module's `SESSION_TIMEOUT` value: when the session is in
the cache, its `last_activity` becomes the current time, its `page_views`
rises by one and the entry is re-stored with a fresh TTL; otherwise
nothing happens. -/
def update_session_activity (c : Cache) (session_timeout : ℕ) (now : ℚ)
    (session_id : String) : Cache :=
  match c (cacheKey session_id) with
  | some (sd, _) =>
    let sd := { sd with last_activity := now, page_views := sd.page_views + 1 }
    c.set (cacheKey session_id) sd session_timeout
  | none => c

end SessionManager

/-! ## Helper lemmas: score monotonicity of the spam checks -/

/-- A fold whose step never decreases the score component never decreases
it overall. -/
theorem foldl_fst_mono {α β : Type} (step : (ℚ × β) → α → (ℚ × β))
    (hstep : ∀ acc x, acc.1 ≤ (step acc x).1) :
    ∀ (l : List α) (acc : ℚ × β), acc.1 ≤ (l.foldl step acc).1 := by
  intro l
  induction l with
  | nil => intro acc; exact le_refl _
  | cons x t ih => intro acc; exact le_trans (hstep acc x) (ih (step acc x))

theorem dsKeywords_mono (m n s : String) (acc : ℚ × List String) :
    acc.1 ≤ (dsKeywords m n s acc).1 := by
  refine foldl_fst_mono _ ?_ spam_keywords acc
  intro a kw
  dsimp only
  split
  · dsimp only; linarith
  · exact le_refl _

theorem dsLinks_mono (m : String) (acc : ℚ × List String) : acc.1 ≤ (dsLinks m acc).1 := by
  simp only [dsLinks]
  split
  · dsimp only; linarith
  · exact le_refl _

theorem dsCaps_mono (m : String) (acc : ℚ × List String) : acc.1 ≤ (dsCaps m acc).1 := by
  unfold dsCaps
  split
  · split
    · dsimp only; linarith
    · exact le_refl _
  · exact le_refl _

theorem dsRepeat_mono (m : String) (acc : ℚ × List String) : acc.1 ≤ (dsRepeat m acc).1 := by
  unfold dsRepeat
  split
  · dsimp only; linarith
  · exact le_refl _

theorem dsDomain_mono (e : String) (acc : ℚ × List String) : acc.1 ≤ (dsDomain e acc).1 := by
  unfold dsDomain
  split
  · dsimp only; linarith
  · exact le_refl _

theorem dsShort_mono (m : String) (acc : ℚ × List String) : acc.1 ≤ (dsShort m acc).1 := by
  unfold dsShort
  split
  · dsimp only; linarith
  · exact le_refl _

theorem dsEmailFmt_mono (e : String) (acc : ℚ × List String) : acc.1 ≤ (dsEmailFmt e acc).1 := by
  unfold dsEmailFmt
  split
  · dsimp only; linarith
  · exact le_refl _

theorem dsPatterns_mono (m : String) (acc : ℚ × List String) : acc.1 ≤ (dsPatterns m acc).1 := by
  simp only [dsPatterns]
  split <;> split <;> linarith

/-- The accumulated `detect_spam` score never falls below its start. -/
theorem detect_chain_mono (m e n s : String) (acc : ℚ × List String) :
    acc.1 ≤ (dsPatterns m (dsEmailFmt e (dsShort m (dsDomain e
      (dsRepeat m (dsCaps m (dsLinks m (dsKeywords m n s acc)))))))).1 :=
  le_trans (dsKeywords_mono m n s acc) <| le_trans (dsLinks_mono m _) <|
    le_trans (dsCaps_mono m _) <| le_trans (dsRepeat_mono m _) <|
      le_trans (dsDomain_mono e _) <| le_trans (dsShort_mono m _) <|
        le_trans (dsEmailFmt_mono e _) (dsPatterns_mono m _)

namespace CheckSubmissionSpam

theorem ccKeywords_mono (m n s : String) (acc : CAcc) : acc.1 ≤ (ccKeywords m n s acc).1 := by
  refine foldl_fst_mono _ ?_ SPAM_KEYWORDS acc
  intro a kw
  dsimp only
  split <;> linarith

theorem ccLinks_mono (m : String) (acc : CAcc) : acc.1 ≤ (ccLinks m acc).1 := by
  simp only [ccLinks]
  split <;> linarith

theorem ccCaps_mono (m : String) (acc : CAcc) : acc.1 ≤ (ccCaps m acc).1 := by
  simp only [ccCaps]
  split
  · split <;> linarith
  · linarith

theorem ccRepeat_mono (m : String) (acc : CAcc) : acc.1 ≤ (ccRepeat m acc).1 := by
  simp only [ccRepeat]
  split <;> linarith

theorem ccPatterns_mono (m : String) (acc : CAcc) : acc.1 ≤ (ccPatterns m acc).1 := by
  simp only [ccPatterns]
  split <;> linarith

theorem ccDomain_mono (e : String) (acc : CAcc) : acc.1 ≤ (ccDomain e acc).1 := by
  simp only [ccDomain]
  split <;> linarith

theorem ccBlacklist_mono (e : String) (acc : CAcc) : acc.1 ≤ (ccBlacklist e acc).1 := by
  simp only [ccBlacklist]
  split <;> linarith

theorem ccEmailFmt_mono (e : String) (acc : CAcc) : acc.1 ≤ (ccEmailFmt e acc).1 := by
  simp only [ccEmailFmt]
  split <;> linarith

theorem ccShort_mono (m : String) (acc : CAcc) : acc.1 ≤ (ccShort m acc).1 := by
  simp only [ccShort]
  split <;> linarith

/-- The accumulated content score never falls below its start. -/
theorem content_chain_mono (m e n s : String) (acc : CAcc) :
    acc.1 ≤ (ccShort m (ccEmailFmt e (ccBlacklist e (ccDomain e
      (ccPatterns m (ccRepeat m (ccCaps m (ccLinks m (ccKeywords m n s acc))))))))).1 :=
  le_trans (ccKeywords_mono m n s acc) <| le_trans (ccLinks_mono m _) <|
    le_trans (ccCaps_mono m _) <| le_trans (ccRepeat_mono m _) <|
      le_trans (ccPatterns_mono m _) <| le_trans (ccDomain_mono e _) <|
        le_trans (ccBlacklist_mono e _) <| le_trans (ccEmailFmt_mono e _) (ccShort_mono m _)

/-- The spam score after `check_content` is at least the incoming one. -/
theorem check_content_mono (data : SubmissionData) (st : St) :
    st.spam_score ≤ ((check_content data st).2).spam_score := by
  simp only [check_content]
  have h := content_chain_mono (pyLower data.message) (pyLower data.email)
    (pyLower data.name) (pyLower data.subject) ((0 : ℚ), ([] : List String), ([] : List String))
  dsimp only at h ⊢
  linarith

/-- The spam score after `check_honeypot` is at least the incoming one. -/
theorem check_honeypot_mono (st : St) (v : String) :
    st.spam_score ≤ ((check_honeypot st v).2).spam_score := by
  simp only [check_honeypot, St.add]
  split <;> dsimp only <;> linarith

/-- The spam score after `check_recaptcha` is at least the incoming one. -/
theorem check_recaptcha_mono (env : Env) (st : St) (tok : String) :
    st.spam_score ≤ ((check_recaptcha env st tok).2).spam_score := by
  obtain ⟨sec, req, verify, rl⟩ := env
  cases sec with
  | none => exact le_refl _
  | some secret =>
    unfold check_recaptcha
    dsimp only
    split
    · simp only [St.add]; linarith
    · rcases hv : verify tok secret with ⟨success, score, error⟩
      dsimp only
      split
      · simp only [St.add]; linarith
      · split
        · rename_i h
          have h0 : (0 : ℚ) ≤ (req - score) * 0.5 :=
            mul_nonneg (by linarith) (by norm_num)
          simp only [St.add]
          linarith
        · exact le_refl _

/-- The spam score after `check_rate_limit` is at least the incoming one. -/
theorem check_rate_limit_mono (env : Env) (r : Bool) (st : St) :
    st.spam_score ≤ ((check_rate_limit env r st).2).spam_score := by
  simp only [check_rate_limit]
  split
  · exact le_refl _
  · split
    · simp only [St.add]; linarith
    · exact le_refl _

end CheckSubmissionSpam

namespace CheckSubmissionSpam

/-- Bounds for the rate-limit/content suffix of `calculate_spam_score`,
given a nonnegative incoming score. -/
theorem calc_rl_ct_bounds (env : Env) (data : SubmissionData) (r : Bool) (st2 : St)
    (h2 : 0 ≤ st2.spam_score) :
    0 ≤ (let rl := check_rate_limit env r st2
         if rl.1 then (true, 1.0, rl.2.reasons, rl.2.logs)
         else
           let ct := check_content data rl.2
           let final_score := min 1.0 ct.2.spam_score
           ((0.7 : ℚ) < final_score, final_score, ct.2.reasons, ct.2.logs)).2.1 ∧
    (let rl := check_rate_limit env r st2
     if rl.1 then (true, 1.0, rl.2.reasons, rl.2.logs)
     else
       let ct := check_content data rl.2
       let final_score := min 1.0 ct.2.spam_score
       ((0.7 : ℚ) < final_score, final_score, ct.2.reasons, ct.2.logs)).2.1 ≤ 1 := by
  have hrl := check_rate_limit_mono env r st2
  have hct := check_content_mono data (check_rate_limit env r st2).2
  dsimp only
  split
  · exact ⟨by norm_num, by norm_num⟩
  · exact ⟨le_min (by norm_num) (by linarith), le_trans (min_le_left _ _) (by norm_num)⟩

/-- Bounds for the whole suffix of `calculate_spam_score` after the
honeypot stage, given a nonnegative incoming score. -/
theorem calc_tail_bounds (env : Env) (data : SubmissionData) (r : Bool)
    (tok : Option String) (st1 : St) (h1 : 0 ≤ st1.spam_score) :
    0 ≤ (let rc := match tok with
           | some t => check_recaptcha env st1 t
           | none => ((false, 0.0), st1)
         if rc.1.1 ∧ (0.5 : ℚ) ≤ rc.1.2 then
           (true, min 1.0 rc.2.spam_score, rc.2.reasons, rc.2.logs)
         else
           let rl := check_rate_limit env r rc.2
           if rl.1 then (true, 1.0, rl.2.reasons, rl.2.logs)
           else
             let ct := check_content data rl.2
             let final_score := min 1.0 ct.2.spam_score
             ((0.7 : ℚ) < final_score, final_score, ct.2.reasons, ct.2.logs)).2.1 ∧
    (let rc := match tok with
       | some t => check_recaptcha env st1 t
       | none => ((false, 0.0), st1)
     if rc.1.1 ∧ (0.5 : ℚ) ≤ rc.1.2 then
       (true, min 1.0 rc.2.spam_score, rc.2.reasons, rc.2.logs)
     else
       let rl := check_rate_limit env r rc.2
       if rl.1 then (true, 1.0, rl.2.reasons, rl.2.logs)
       else
         let ct := check_content data rl.2
         let final_score := min 1.0 ct.2.spam_score
         ((0.7 : ℚ) < final_score, final_score, ct.2.reasons, ct.2.logs)).2.1 ≤ 1 := by
  cases tok with
  | none =>
    dsimp only
    split
    · rename_i hcond
      exact absurd hcond (by simp)
    · exact calc_rl_ct_bounds env data r st1 h1
  | some t =>
    have hrc := check_recaptcha_mono env st1 t
    dsimp only
    split
    · exact ⟨le_min (by norm_num) (by linarith), le_trans (min_le_left _ _) (by norm_num)⟩
    · exact calc_rl_ct_bounds env data r _ (by linarith)

end CheckSubmissionSpam

/-- C1: for every submission and every combination of honeypot, reCAPTCHA
and rate-limit signals, the score returned by `detect_spam` and the
`final_score` returned by `CheckSubmissionSpam.calculate_spam_score` lie
between 0 and 1 inclusive. -/
theorem spam_scores_within_unit_interval
    (data : SubmissionData) (env : CheckSubmissionSpam.Env) (hasRequest : Bool)
    (honeypot_value recaptcha_token : Option String) :
    (0 ≤ (detect_spam data).2.1 ∧ (detect_spam data).2.1 ≤ 1) ∧
    (0 ≤ (CheckSubmissionSpam.calculate_spam_score env data hasRequest
            honeypot_value recaptcha_token).2.1 ∧
     (CheckSubmissionSpam.calculate_spam_score env data hasRequest
        honeypot_value recaptcha_token).2.1 ≤ 1) := by
  constructor
  · have h := detect_chain_mono (pyLower data.message) (pyLower data.email)
      (pyLower data.name) (pyLower data.subject) (0, [])
    simp only [detect_spam]
    exact ⟨le_min (by norm_num) h, min_le_left _ _⟩
  · simp only [CheckSubmissionSpam.calculate_spam_score]
    cases honeypot_value with
    | none =>
      exact CheckSubmissionSpam.calc_tail_bounds env data hasRequest recaptcha_token
        ⟨0.0, [], []⟩ (by norm_num)
    | some v =>
      have hhp := CheckSubmissionSpam.check_honeypot_mono ⟨0.0, [], []⟩ v
      dsimp only
      split
      · exact ⟨by norm_num, by norm_num⟩
      · exact CheckSubmissionSpam.calc_tail_bounds env data hasRequest recaptcha_token
          _ (by dsimp only [CheckSubmissionSpam.St.spam_score] at hhp ⊢; linarith)

/-- C9: the Boolean `detect_spam` returns agrees with its returned
(clamped) score at the 0.7 threshold: it is `True` exactly when that score
is at least 0.7. -/
theorem detect_spam_flag_iff_score (data : SubmissionData) :
    (detect_spam data).1 = true ↔ (0.7 : ℚ) ≤ (detect_spam data).2.1 := by
  simp only [detect_spam]
  constructor
  · intro h
    have hs := of_decide_eq_true h
    exact le_min (by norm_num) hs
  · intro h
    exact decide_eq_true (le_trans h (min_le_right _ _))

/-- C8: a honeypot value that is nonempty after stripping whitespace makes
`calculate_spam_score` return spam with score exactly 1.0 immediately — the
result is the honeypot-only reason and log, independent of the submission
data, the reCAPTCHA token and the whole external environment, so the
reCAPTCHA, rate-limit and content checks play no part. -/
theorem honeypot_short_circuit (hp : String) (h : pyStrip hp ≠ "")
    (env : CheckSubmissionSpam.Env) (data : SubmissionData) (hasRequest : Bool)
    (tok : Option String) :
    CheckSubmissionSpam.calculate_spam_score env data hasRequest (some hp) tok =
      (true, 1.0, ["Honeypot field filled"],
       ["Honeypot check failed: field contains \x27" ++ hp.take 20 ++ "\x27"]) := by
  have hne : hp ≠ "" := by
    intro he
    exact h (by rw [he]; rfl)
  unfold CheckSubmissionSpam.calculate_spam_score CheckSubmissionSpam.check_honeypot
  dsimp only
  rw [if_pos (show ¬hp = "" ∧ ¬pyStrip hp = "" from ⟨hne, h⟩)]
  simp [CheckSubmissionSpam.St.add]

/-- C8 witness: the short-circuit at the honeypot value `" x "`. -/
theorem honeypot_short_circuit_witness :
    CheckSubmissionSpam.calculate_spam_score
        ⟨none, 0, fun _ _ => (false, 0, ""), false⟩ ⟨"", "", "", ""⟩ false (some " x ") none =
      (true, 1.0, ["Honeypot field filled"],
       ["Honeypot check failed: field contains \x27" ++ " x ".take 20 ++ "\x27"]) :=
  honeypot_short_circuit " x " (by decide) _ _ _ _

/-- C6 counterexample: `calculate_spam_score` is not a function of its
explicit inputs alone — with identical submission data, honeypot and token,
flipping only the external rate-limit counter state changes its output. -/
theorem spam_score_depends_on_rate_limit :
    CheckSubmissionSpam.calculate_spam_score
        ⟨none, 0, fun _ _ => (false, 0, ""), false⟩ ⟨"", "", "", ""⟩ true none none ≠
    CheckSubmissionSpam.calculate_spam_score
        ⟨none, 0, fun _ _ => (false, 0, ""), true⟩ ⟨"", "", "", ""⟩ true none none := by
  intro h
  exact absurd (congrArg (fun r => r.2.2.1) h) (by decide)

/-- C6 (amended): `ABTest.assign_variant` is stateless — it depends only on
the test's id, its traffic split and the user identifier — and
`calculate_spam_score` is stateless exactly when invoked without a request
and without a reCAPTCHA token: then its output is independent of the whole
external environment (settings, reCAPTCHA verification, rate-limit
counters).  With a request supplied, the rate-limit counter can change the
result (see the counterexample). -/
theorem statelessness_amended :
    (∀ (t1 t2 : ABTest) (uid : String), t1.id = t2.id → t1.traffic_split = t2.traffic_split →
       t1.assign_variant uid = t2.assign_variant uid) ∧
    (∀ (env env' : CheckSubmissionSpam.Env) (data : SubmissionData) (hp : Option String),
       CheckSubmissionSpam.calculate_spam_score env data false hp none =
       CheckSubmissionSpam.calculate_spam_score env' data false hp none) := by
  constructor
  · intro t1 t2 uid hid hsplit
    obtain ⟨i1, s1⟩ := t1
    obtain ⟨i2, s2⟩ := t2
    dsimp only [ABTest.id, ABTest.traffic_split] at hid hsplit
    subst hid
    subst hsplit
    rfl
  · intro env env' data hp
    rfl

/-- C2: variant assignment is deterministic hash-based bucketing — two
tests with the same id and traffic split assign every identifier alike, and
the assignment is always exactly the string `'A'` or the string `'B'`. -/
theorem assign_variant_deterministic_and_binary (t1 t2 : ABTest) (uid : String)
    (hid : t1.id = t2.id) (hsplit : t1.traffic_split = t2.traffic_split) :
    t1.assign_variant uid = t2.assign_variant uid ∧
    (t1.assign_variant uid = "A" ∨ t1.assign_variant uid = "B") := by
  obtain ⟨i1, s1⟩ := t1
  obtain ⟨i2, s2⟩ := t2
  dsimp only [ABTest.id, ABTest.traffic_split] at hid hsplit
  subst hid
  subst hsplit
  refine ⟨rfl, ?_⟩
  unfold ABTest.assign_variant
  dsimp only
  split
  · right; rfl
  · left; rfl

/-- C2 witness: two equal test configurations assign `"alice"` alike, to a
variant that is `'A'` or `'B'`. -/
theorem assign_variant_deterministic_witness :
    ABTest.assign_variant ⟨"t", 50⟩ "alice" = ABTest.assign_variant ⟨"t", 50⟩ "alice" ∧
    (ABTest.assign_variant ⟨"t", 50⟩ "alice" = "A" ∨
     ABTest.assign_variant ⟨"t", 50⟩ "alice" = "B") :=
  assign_variant_deterministic_and_binary ⟨"t", 50⟩ ⟨"t", 50⟩ "alice" rfl rfl

set_option maxRecDepth 10000 in
/-- For splits in the documented 0–100 range, the float threshold
`(t/100)*100` compares against the integer buckets 0–99 exactly as `t`
does, except at the five splits 7, 14, 28, 55 and 56, where the two binary64
roundings land strictly above `t` and bucket `t` itself also falls to
variant B. -/
theorem floatThreshold_bucket :
    ∀ t : ℕ, t < 101 → ∀ k : ℕ, k < 100 →
      (((k : ℚ) < floatThreshold (t : ℤ)) ↔
        (k < t ∨ (k = t ∧ (t = 7 ∨ t = 14 ∨ t = 28 ∨ t = 55 ∨ t = 56)))) := by
  decide

set_option maxRecDepth 10000 in
/-- C4 counterexample: with traffic split 7, the identifier `"user56"`
hashes to 7 mod 100 under the test id below, so `assign_variant` returns
`'B'` although `md5(id_identifier) % 100 < traffic_split` is false — the
claimed bucketing condition does not hold as stated. -/
theorem assign_variant_bucket_claim_false :
    ABTest.assign_variant ⟨"00000000-0000-0000-0000-000000000000", 7⟩ "user56" = "B" ∧
    ¬ (md5Int ("00000000-0000-0000-0000-000000000000" ++ "_" ++ "user56") % 100 < 7) := by
  decide

/-- C4 (amended): for a traffic split in the documented 0–100 range,
`assign_variant` returns `'B'` exactly when the MD5 hash of
`"{id}_{identifier}"` taken mod 100 is strictly below the traffic split,
or equals it and the split is one of 7, 14, 28, 55, 56 — the five values
whose float threshold `(t/100)*100` rounds strictly above `t`.  In
particular split 0 assigns everyone `'A'` and split 100 everyone `'B'`. -/
theorem assign_variant_bucket_exact (test : ABTest) (uid : String)
    (h0 : 0 ≤ test.traffic_split) (h100 : test.traffic_split ≤ 100) :
    (test.assign_variant uid = "B" ↔
      ((md5Int (test.id ++ "_" ++ uid) % 100 : ℤ) < test.traffic_split ∨
       ((md5Int (test.id ++ "_" ++ uid) % 100 : ℤ) = test.traffic_split ∧
        (test.traffic_split = 7 ∨ test.traffic_split = 14 ∨ test.traffic_split = 28 ∨
         test.traffic_split = 55 ∨ test.traffic_split = 56)))) ∧
    (test.traffic_split = 0 → test.assign_variant uid = "A") ∧
    (test.traffic_split = 100 → test.assign_variant uid = "B") := by
  obtain ⟨tid, ts⟩ := test
  dsimp only [ABTest.id, ABTest.traffic_split] at h0 h100 ⊢
  have hts : ((ts.toNat : ℕ) : ℤ) = ts := Int.toNat_of_nonneg h0
  have ht101 : ts.toNat < 101 := by omega
  have hk : md5Int (tid ++ "_" ++ uid) % 100 < 100 := Nat.mod_lt _ (by norm_num)
  have key := floatThreshold_bucket ts.toNat ht101 (md5Int (tid ++ "_" ++ uid) % 100) hk
  rw [hts] at key
  have hiff : (((md5Int (tid ++ "_" ++ uid) % 100 : ℕ) : ℚ) < floatThreshold ts) ↔
      ((md5Int (tid ++ "_" ++ uid) % 100 : ℤ) < ts ∨
       ((md5Int (tid ++ "_" ++ uid) % 100 : ℤ) = ts ∧
        (ts = 7 ∨ ts = 14 ∨ ts = 28 ∨ ts = 55 ∨ ts = 56))) := by
    rw [key]
    omega
  unfold ABTest.assign_variant
  dsimp only
  refine ⟨?_, ?_, ?_⟩
  · split
    · rename_i hc
      exact iff_of_true rfl (hiff.mp hc)
    · rename_i hc
      exact iff_of_false (by decide) (fun hr => hc (hiff.mpr hr))
  · intro hz
    subst hz
    rw [if_neg (fun hc => by have := hiff.mp hc; omega)]
  · intro hh
    subst hh
    rw [if_pos (hiff.mpr (Or.inl (by omega)))]

/-- C4 witness: the amended bucketing rule evaluated at split 7 and
identifier `"user56"`. -/
theorem assign_variant_bucket_exact_witness :
    (ABTest.assign_variant ⟨"00000000-0000-0000-0000-000000000000", 7⟩ "user56" = "B" ↔
      ((md5Int ("00000000-0000-0000-0000-000000000000" ++ "_" ++ "user56") % 100 : ℤ) < 7 ∨
       ((md5Int ("00000000-0000-0000-0000-000000000000" ++ "_" ++ "user56") % 100 : ℤ) = 7 ∧
        ((7 : ℤ) = 7 ∨ (7 : ℤ) = 14 ∨ (7 : ℤ) = 28 ∨ (7 : ℤ) = 55 ∨ (7 : ℤ) = 56)))) ∧
    ((7 : ℤ) = 0 →
      ABTest.assign_variant ⟨"00000000-0000-0000-0000-000000000000", 7⟩ "user56" = "A") ∧
    ((7 : ℤ) = 100 →
      ABTest.assign_variant ⟨"00000000-0000-0000-0000-000000000000", 7⟩ "user56" = "B") :=
  assign_variant_bucket_exact ⟨"00000000-0000-0000-0000-000000000000", 7⟩ "user56"
    (by norm_num) (by norm_num)

/-- C3: with visitors on both variants, `calculate_stats` stores `'A'` or
`'B'` as winner only when the chi-square p-value is strictly below 0.05 and
that variant's conversion rate is strictly higher; in every other case it
stores `'N'`. -/
theorem calculate_stats_winner_gated (st : ABTestStats) (aVis bVis aConv bConv : ℕ)
    (p : ℚ) (ha : 0 < aVis) (hb : 0 < bVis) :
    ((st.calculate_stats aVis bVis aConv bConv p).winner = some "A" →
       p < 0.05 ∧ (bConv : ℚ) / (bVis : ℚ) * 100 < (aConv : ℚ) / (aVis : ℚ) * 100) ∧
    ((st.calculate_stats aVis bVis aConv bConv p).winner = some "B" →
       p < 0.05 ∧ (aConv : ℚ) / (aVis : ℚ) * 100 < (bConv : ℚ) / (bVis : ℚ) * 100) ∧
    ((st.calculate_stats aVis bVis aConv bConv p).winner ≠ some "A" →
     (st.calculate_stats aVis bVis aConv bConv p).winner ≠ some "B" →
       (st.calculate_stats aVis bVis aConv bConv p).winner = some "N") := by
  unfold ABTestStats.calculate_stats
  have e1 : (0 < aVis) = True := eq_true ha
  have e2 : (0 < bVis) = True := eq_true hb
  have e3 : (0 < aVis ∧ 0 < bVis) = True := eq_true ⟨ha, hb⟩
  simp only [e1, e2, e3, and_self, if_true]
  split_ifs with hp h1 h2
  · exact ⟨fun h => by simp at h, fun _ => ⟨hp, h1⟩, fun _ h => absurd rfl h⟩
  · exact ⟨fun _ => ⟨hp, h2⟩, fun h => by simp at h, fun h _ => absurd rfl h⟩
  · exact ⟨fun h => by simp at h, fun h => by simp at h, fun _ _ => rfl⟩
  · exact ⟨fun h => by simp at h, fun h => by simp at h, fun _ _ => rfl⟩

/-- C3 witness: the winner gate at 10 visitors per variant, 1 versus 9
conversions and p-value 1/100. -/
theorem calculate_stats_winner_gated_witness :
    ((ABTestStats.calculate_stats ⟨0, 0, 0, 0, 0, 0, none, none, none⟩ 10 10 1 9 (1/100)).winner = some "A" →
       (1 : ℚ)/100 < 0.05 ∧
       ((9 : ℕ) : ℚ) / ((10 : ℕ) : ℚ) * 100 < ((1 : ℕ) : ℚ) / ((10 : ℕ) : ℚ) * 100) ∧
    ((ABTestStats.calculate_stats ⟨0, 0, 0, 0, 0, 0, none, none, none⟩ 10 10 1 9 (1/100)).winner = some "B" →
       (1 : ℚ)/100 < 0.05 ∧
       ((1 : ℕ) : ℚ) / ((10 : ℕ) : ℚ) * 100 < ((9 : ℕ) : ℚ) / ((10 : ℕ) : ℚ) * 100) ∧
    ((ABTestStats.calculate_stats ⟨0, 0, 0, 0, 0, 0, none, none, none⟩ 10 10 1 9 (1/100)).winner ≠ some "A" →
     (ABTestStats.calculate_stats ⟨0, 0, 0, 0, 0, 0, none, none, none⟩ 10 10 1 9 (1/100)).winner ≠ some "B" →
       (ABTestStats.calculate_stats ⟨0, 0, 0, 0, 0, 0, none, none, none⟩ 10 10 1 9 (1/100)).winner = some "N") :=
  calculate_stats_winner_gated ⟨0, 0, 0, 0, 0, 0, none, none, none⟩ 10 10 1 9 (1/100)
    (by norm_num) (by norm_num)

/-- C5: `mark_as_failed` increments the attempt count by exactly one and
then either schedules a retry — status `'retrying'` with the next retry at
now plus the config's delay — while the new count is strictly below the
config's `retry_attempts`, or marks the event `'failed'`; no other status
is produced. -/
theorem mark_as_failed_retry_machine (ev : WebhookEvent) (now : ℤ) (msg : String)
    (rs : Option ℤ) (rb : String) :
    (ev.mark_as_failed now msg rs rb).attempt_count = ev.attempt_count + 1 ∧
    ((ev.mark_as_failed now msg rs rb).attempt_count < ev.webhook_config.retry_attempts →
      (ev.mark_as_failed now msg rs rb).status = "retrying" ∧
      (ev.mark_as_failed now msg rs rb).next_retry_at =
        some (now + ev.webhook_config.retry_delay)) ∧
    (¬ (ev.mark_as_failed now msg rs rb).attempt_count < ev.webhook_config.retry_attempts →
      (ev.mark_as_failed now msg rs rb).status = "failed") ∧
    ((ev.mark_as_failed now msg rs rb).status = "retrying" ∨
     (ev.mark_as_failed now msg rs rb).status = "failed") := by
  unfold WebhookEvent.mark_as_failed
  rcases rs with _ | s <;> dsimp only <;> split_ifs <;>
    refine ⟨rfl, fun h => ?_, fun hn => ?_, ?_⟩ <;> simp_all

/-! ## The HMAC refinement lemmas for C7 -/

/-- A SHA-256 digest is exactly 32 bytes. -/
theorem sha256Bytes_len (msg : List ℕ) : (sha256Bytes msg).length = 32 := by
  unfold sha256Bytes bytesBE32
  simp

/-- Zipping with a long-enough constant block is a pointwise translation. -/
theorem zipWith_xor_replicate (l : List ℕ) (c : ℕ) :
    ∀ n, l.length = n → l.zipWith Nat.xor (List.replicate n c) = l.map (fun b => b ^^^ c) := by
  induction l with
  | nil => intro n _; simp
  | cons a t ih =>
    intro n h
    cases n with
    | zero => simp at h
    | succ m =>
      simp only [List.replicate_succ, List.zipWith_cons_cons, List.map_cons]
      rw [ih m (by simpa using h)]
      rfl

/-- CPython's `hmac` digest construction coincides with the RFC 2104
formula. -/
theorem pyHmacSha256_eq_rfc (key msg : List ℕ) : pyHmacSha256 key msg = hmacSha256Rfc key msg := by
  unfold pyHmacSha256 hmacSha256Rfc
  dsimp only
  rcases le_or_lt key.length 64 with hle | hlt
  · rw [if_neg (by omega), if_pos hle]
    have hl : (key ++ List.replicate (64 - key.length) 0).length = 64 := by
      simp
      omega
    rw [zipWith_xor_replicate _ _ _ hl, zipWith_xor_replicate _ _ _ hl]
  · rw [if_pos hlt, if_neg (by omega)]
    have hl : (sha256Bytes key ++ List.replicate (64 - (sha256Bytes key).length) 0).length = 64 := by
      simp [sha256Bytes_len]
    rw [zipWith_xor_replicate _ _ _ hl, zipWith_xor_replicate _ _ _ hl]

/-- C7: `WebhookEvent.generate_signature` returns exactly the lowercase
hexadecimal HMAC-SHA256 digest of the UTF-8 bytes of the payload string
keyed with the UTF-8 bytes of the config's `secret_key`, per the RFC 2104
formula. -/
theorem generate_signature_is_hmac_sha256 (ev : WebhookEvent) (payload_str : String) :
    ev.generate_signature payload_str =
      hmacSha256RfcHex (utf8Encode ev.webhook_config.secret_key) (utf8Encode payload_str) := by
  unfold WebhookEvent.generate_signature hmacSha256RfcHex
  dsimp only
  rw [pyHmacSha256_eq_rfc]

/-- C10: `update_session_activity` on a cached session rewrites exactly
that key, bumping `page_views` by one, setting `last_activity` to the
current time and resetting the TTL, while `session_id`, `created_at` and
`events` are untouched and every other key is unchanged; on a missing
session the cache is left entirely unchanged. -/
theorem update_session_activity_frame (c : SessionManager.Cache) (session_timeout : ℕ)
    (now : ℚ) (sid : String) :
    (∀ sd ttl, c (SessionManager.cacheKey sid) = some (sd, ttl) →
       SessionManager.update_session_activity c session_timeout now sid
           (SessionManager.cacheKey sid) =
         some ({ sd with last_activity := now, page_views := sd.page_views + 1 },
               session_timeout) ∧
       ∀ k, k ≠ SessionManager.cacheKey sid →
         SessionManager.update_session_activity c session_timeout now sid k = c k) ∧
    (c (SessionManager.cacheKey sid) = none →
       SessionManager.update_session_activity c session_timeout now sid = c) := by
  constructor
  · intro sd ttl hsome
    unfold SessionManager.update_session_activity SessionManager.Cache.set
    rw [hsome]
    dsimp only
    constructor
    · rw [if_pos rfl]
    · intro k hk
      rw [if_neg hk]
  · intro hnone
    unfold SessionManager.update_session_activity
    rw [hnone]

/-! ## Test vectors validating the embedded hash primitives against their
published values (RFC 1321 suite, FIPS 180-2 examples, RFC 4231). -/

set_option maxRecDepth 8000 in
/-- RFC 1321 test suite: MD5 of `"abc"`. -/
theorem md5_vector_abc : md5Hex "abc" = "900150983cd24fb0d6963f7d28e17f72" := by
  decide

set_option maxRecDepth 8000 in
/-- FIPS 180-2 example: SHA-256 of `"abc"`. -/
theorem sha256_vector_abc :
    hexOfBytes (sha256Bytes (utf8Encode "abc")) =
      "ba7816bf8f01cfea414140de5dae2223b00361a396177a9cb410ff61f20015ad" := by
  decide

set_option maxRecDepth 16000 in
/-- RFC 4231 test case 2: HMAC-SHA256 with key `"Jefe"`. -/
theorem hmac_sha256_vector_rfc4231 :
    hexOfBytes (pyHmacSha256 (utf8Encode "Jefe")
        (utf8Encode "what do ya want for nothing?")) =
      "5bdcc146bf60754e6a042426089575c75a003f089d2739839dec58b964ec3843" := by
  decide
